import Mathlib

/-!
Verification of the coordinate arithmetic, guard checks and control flow of
`cooling_block.py`, a CadQuery script that generates a liquid-cooled heat
sink block assembly.  All numeric parameters are lengths in mm; the script
computes them with exact closed-form arithmetic, which we embed over `ℚ`.
Python `int(...)` truncation toward zero, `math.floor` and `%` are embedded
explicitly.  The script-level control flow (reference STEP imports guarded
by `ref/` existence and try/except, the assembly list, the STEP exports)
is embedded as a pure function of the environment (whether `ref/` and
`build/` exist, which loads succeed, whether `show_object` is injected).
-/

namespace CoolingBlock

/-- Python `int(q)`: truncation of a rational toward zero. -/
def int_trunc (q : ℚ) : ℤ := if q < 0 then ⌈q⌉ else ⌊q⌋

/-! ### Block and LED-array parameters (lines 23-64) -/

def block_l : ℚ := 350
def block_w : ℚ := 350

def led_array_cols : ℕ := 11
def led_array_rows : ℕ := led_array_cols
def led_repeat_footprint_l : ℚ := block_l / led_array_cols
def led_repeat_footprint_w : ℚ := block_w / led_array_rows

/-- `[-block_l / 2 + x * led_repeat_footprint_l for x in range(1, led_array_cols)]` -/
def led_screw_centers_along_x_axis : List ℚ :=
  (List.range' 1 (led_array_cols - 1)).map
    (fun x => -block_l / 2 + (x : ℚ) * led_repeat_footprint_l)

/-- `[-block_w / 2 + y * led_repeat_footprint_w + (led_repeat_footprint_w / 2) for y in range(0, led_array_rows)]` -/
def led_screw_centers_along_y_axis : List ℚ :=
  (List.range led_array_rows).map
    (fun y => -block_w / 2 + (y : ℚ) * led_repeat_footprint_w + led_repeat_footprint_w / 2)

def led_screw_side_offset : ℚ := 3.5

def led_screw_centers_along_left : List (ℚ × ℚ) :=
  led_screw_centers_along_y_axis.map (fun y => (-block_l / 2 + led_screw_side_offset, y))

def led_screw_centers_along_right : List (ℚ × ℚ) :=
  led_screw_centers_along_y_axis.map (fun y => (block_l / 2 - led_screw_side_offset, y))

/-- The grid comprehension `[(x, y) for x in ... for y in ...]` (lines 57-61). -/
def led_screw_grid : List (ℚ × ℚ) :=
  led_screw_centers_along_x_axis.flatMap
    (fun x => led_screw_centers_along_y_axis.map (fun y => (x, y)))

/-- The list whose Python `set(...)` is `led_screw_holes`. -/
def led_screw_holes_list : List (ℚ × ℚ) :=
  led_screw_grid ++ led_screw_centers_along_left ++ led_screw_centers_along_right

/-- `led_screw_holes = set(grid + left + right)` (lines 56-64). -/
def led_screw_holes : Finset (ℚ × ℚ) := led_screw_holes_list.toFinset

/-! ### Wire pass-through holes (lines 124-143) -/

def pt_hole_footprint_offset : ℚ := 4

/-- Loop over `range(0, led_array_cols)` appending top pass-through centers. -/
def pt_hole_x_centers_along_top : List (ℚ × ℚ) :=
  (List.range led_array_cols).map
    (fun x =>
      (-block_l / 2 + (x : ℚ) * led_repeat_footprint_l + pt_hole_footprint_offset,
       block_w / 2 - pt_hole_footprint_offset))

/-- Loop over `range(1, led_array_cols + 1)` appending bottom pass-through centers. -/
def pt_hole_x_centers_along_bottom : List (ℚ × ℚ) :=
  (List.range' 1 led_array_cols).map
    (fun x =>
      (-block_l / 2 + (x : ℚ) * led_repeat_footprint_l - pt_hole_footprint_offset,
       -block_w / 2 + pt_hole_footprint_offset))

def pt_hole_centers : List (ℚ × ℚ) :=
  pt_hole_x_centers_along_top ++ pt_hole_x_centers_along_bottom

/-! ### O-ring / heat-sink derived parameters (lines 66-78, 119-122, 166-167, 237-265) -/

def extrusion_w : ℚ := 20
def extrusion_screw_clearance_r : ℚ := 5.5 / 2
def cs_screw_clearance_r : ℚ := extrusion_screw_clearance_r
def oring_inner_edge_gap : ℚ := 7
def oring_outer_edge_gap : ℚ := 4
def oring_groove_w : ℚ := 4.57

def oring_inner_l : ℚ :=
  block_l - extrusion_w - 2 * cs_screw_clearance_r - 2 * oring_outer_edge_gap
    - 2 * oring_groove_w

def oring_inner_w : ℚ :=
  block_w - extrusion_w - 2 * cs_screw_clearance_r - 2 * oring_outer_edge_gap
    - 2 * oring_groove_w

def heatsink_cut_l : ℚ := oring_inner_l - 2 * oring_inner_edge_gap
def heatsink_cut_w : ℚ := oring_inner_l - 2 * oring_inner_edge_gap

def fin_gap : ℚ := 10
def approx_fin_t : ℚ := 4

/-- Lines 259-260: `if fin_number % 2 == 0: fin_number += 1`. -/
def fin_number_adjust (n : ℤ) : ℤ := if n % 2 = 0 then n + 1 else n

/-- Lines 258-260 as a function of the three parameters they read:
`fin_number = int((heatsink_cut_w - fin_gap) / (approx_fin_t + fin_gap))`
followed by `if fin_number % 2 == 0: fin_number += 1`. -/
def fin_number_calc (w g t : ℚ) : ℤ :=
  fin_number_adjust (int_trunc ((w - g) / (t + g)))

/-- The script-level `fin_number` for the shipped parameter values. -/
def fin_number : ℤ := fin_number_calc heatsink_cut_w fin_gap approx_fin_t

/-- Line 261 as a function of the parameters it reads:
`fin_t = (heatsink_cut_w - (fin_number + 1) * fin_gap) / fin_number`. -/
def fin_t_calc (w g : ℚ) (n : ℤ) : ℚ := (w - ((n : ℚ) + 1) * g) / (n : ℚ)

/-- The script-level `fin_t` for the shipped parameter values. -/
def fin_t : ℚ := fin_t_calc heatsink_cut_w fin_gap fin_number

/-- Lines 262-263: the script raises `ValueError` exactly when `fin_t < 1`. -/
def fin_t_guard_raises (ft : ℚ) : Bool := ft < 1

/-- Lines 455-457 in `heatsink_cutout`: raise `ValueError` when
`fin_number % 2 == 0` (Python `%` on ints is floor-mod, matching `Int.emod`
for the positive modulus 2). -/
def heatsink_cutout_guard_raises (n : ℤ) : Bool := n % 2 = 0

/-- Consecutive differences of a list of rationals. -/
def consecDiffs (l : List ℚ) : List ℚ := List.zipWith (fun a b => b - a) l l.tail

/-! ### Countersink screw hole grid (lines 174-214), window and spacers (lines 291-320) -/

def cs_delta_l : ℚ := 2 * led_repeat_footprint_l
def cs_delta_w : ℚ := 2 * led_repeat_footprint_w

/-- `math.floor(led_array_cols / 2)` (line 176). -/
def cs_number_l : ℕ := (⌊(led_array_cols : ℚ) / 2⌋).toNat

/-- `math.floor(led_array_rows / 2)` (line 177). -/
def cs_number_w : ℕ := (⌊(led_array_rows : ℚ) / 2⌋).toNat

def cs_centers_along_x_axis_1 : List ℚ :=
  (List.range cs_number_l).map
    (fun x => -block_l / 2 + pt_hole_footprint_offset + (x : ℚ) * cs_delta_l
      + 3 * led_repeat_footprint_l / 2)

def cs_centers_along_x_axis_2 : List ℚ :=
  (List.range cs_number_l).map
    (fun x => block_l / 2 - pt_hole_footprint_offset - (x : ℚ) * cs_delta_l
      - 3 * led_repeat_footprint_l / 2)

def cs_centers_along_y_axis_1 : List ℚ :=
  (List.range cs_number_w).map
    (fun y => -block_w / 2 + pt_hole_footprint_offset + (y : ℚ) * cs_delta_w
      + 3 * led_repeat_footprint_w / 2)

def cs_centers_along_y_axis_2 : List ℚ :=
  (List.range cs_number_w).map
    (fun y => block_w / 2 - pt_hole_footprint_offset - (y : ℚ) * cs_delta_w
      - 3 * led_repeat_footprint_w / 2)

def cs_holes1 : List (ℚ × ℚ) :=
  cs_centers_along_x_axis_1.map (fun x => (x, (block_w - extrusion_w) / 2))

def cs_holes2 : List (ℚ × ℚ) :=
  cs_centers_along_x_axis_2.map (fun x => (x, -(block_w - extrusion_w) / 2))

def cs_holes3 : List (ℚ × ℚ) :=
  cs_centers_along_y_axis_1.map (fun y => (-(block_l - extrusion_w) / 2, y))

def cs_holes4 : List (ℚ × ℚ) :=
  cs_centers_along_y_axis_2.map (fun y => ((block_l - extrusion_w) / 2, y))

def cs_holes : List (ℚ × ℚ) := cs_holes1 ++ cs_holes2 ++ cs_holes3 ++ cs_holes4

def window_l : ℚ := block_l
def window_w : ℚ := block_w
def window_screw_offset_x : ℚ := 3.5
def window_screw_offset_y : ℚ := block_l / led_array_cols / 2

def window_screw_holes : List (ℚ × ℚ) :=
  [(-window_l / 2 + window_screw_offset_x, -window_w / 2 + window_screw_offset_y),
   (window_l / 2 - window_screw_offset_x, -window_w / 2 + window_screw_offset_y),
   (-window_l / 2 + window_screw_offset_x, window_w / 2 - window_screw_offset_y),
   (window_l / 2 - window_screw_offset_x, window_w / 2 - window_screw_offset_y)]

/-! ### Script control flow: reference imports, guards, assembly, exports

The script's interaction with the environment is embedded as a pure function
of: whether `ref/` exists (line 19), whether `build/` exists (line 14),
whether a `show_object` callback is injected (line 913), and which of the
five reference STEP imports would succeed.  Each `if ref_dir.is_dir(): try
... except: warn` import block and each `try ... except: pass` assembly
block is modelled by its success condition; a guard `raise ValueError`
becomes an `Except.error` return. -/

inductive RefPart
  | extrusion
  | bracket
  | bracketScrew
  | csScrew
  | waterPort
deriving DecidableEq

inductive Warning
  | refDirMissing
  | extrusionLoadFailed
  | bracketLoadFailed
  | bracketScrewLoadFailed
  | csScrewLoadFailed
  | waterPortLoadFailed
deriving DecidableEq

inductive Part
  | coolingBlock
  | blockLid
  | pcbWindow
  | spacer
  | waterInlet
  | waterOutlet
  | bracket1
  | bracket2
  | bracket3
  | bracket4
  | bracketScrew1
  | bracketScrew2
  | bracketScrew3
  | bracketScrew4
  | extrusion1
  | extrusion2
  | csScrew
deriving DecidableEq

inductive FileName
  | assemblyStep
  | blockStep
  | lidStep
deriving DecidableEq

/-- The facts about the environment the script's control flow depends on. -/
structure Env where
  refDirExists : Bool
  buildDirExists : Bool
  showObjectDefined : Bool
  extrusionLoadOk : Bool
  bracketLoadOk : Bool
  bracketScrewLoadOk : Bool
  csScrewLoadOk : Bool
  waterPortLoadOk : Bool

/-- `extrusion` is a defined variable iff `ref/` existed and its import
succeeded (lines 85-92). -/
def extrusionLoaded (e : Env) : Bool :=
  if e.refDirExists then e.extrusionLoadOk else false

/-- `bracket` is defined iff `ref/` existed and its import succeeded (99-106). -/
def bracketLoaded (e : Env) : Bool :=
  if e.refDirExists then e.bracketLoadOk else false

/-- `bracket_screw` is defined iff `ref/` existed and its import succeeded (110-116). -/
def bracketScrewLoaded (e : Env) : Bool :=
  if e.refDirExists then e.bracketScrewLoadOk else false

/-- `cs_screw` is defined iff `ref/` existed and its import succeeded (218-224). -/
def csScrewLoaded (e : Env) : Bool :=
  if e.refDirExists then e.csScrewLoadOk else false

/-- `water_port` is defined iff `ref/` existed and its import succeeded (350-360). -/
def waterPortLoaded (e : Env) : Bool :=
  if e.refDirExists then e.waterPortLoadOk else false

/-- Observable outcome of a completed (non-raising) run of the script. -/
structure RunOutcome where
  warnings : List Warning
  loadedRefParts : List RefPart
  assembly : List Part
  exportedFiles : List FileName
  buildDirCreated : Bool
deriving DecidableEq

/-- The script, top to bottom: build-dir creation (13-16), `ref/` check and
warning (18-21), the three early imports (85-116), the `cs_screw` import
(218-224), the fin-thickness guard (258-263), the water-port import
(350-360), the fin-count guard inside `heatsink_cutout` at its call (455-457,
757), the assembly list (765-908) in which each reference part appears only
if its variable was defined (its `try` block otherwise hits `NameError` and
passes), and the export branch (913-926). -/
def runScript (e : Env) : Except String RunOutcome :=
  let buildDirCreated := !e.buildDirExists
  let refWarnings : List Warning :=
    if e.refDirExists then [] else [Warning.refDirMissing]
  let extrusionWarnings : List Warning :=
    if e.refDirExists then
      (if e.extrusionLoadOk then [] else [Warning.extrusionLoadFailed]) else []
  let bracketWarnings : List Warning :=
    if e.refDirExists then
      (if e.bracketLoadOk then [] else [Warning.bracketLoadFailed]) else []
  let bracketScrewWarnings : List Warning :=
    if e.refDirExists then
      (if e.bracketScrewLoadOk then [] else [Warning.bracketScrewLoadFailed]) else []
  let csScrewWarnings : List Warning :=
    if e.refDirExists then
      (if e.csScrewLoadOk then [] else [Warning.csScrewLoadFailed]) else []
  if fin_t_guard_raises fin_t then
    Except.error "Fin thickness must be greater than 1 mm to be machinable."
  else
    let waterPortWarnings : List Warning :=
      if e.refDirExists then
        (if e.waterPortLoadOk then [] else [Warning.waterPortLoadFailed]) else []
    if heatsink_cutout_guard_raises fin_number then
      Except.error "Fin number must be odd."
    else
      let loadedRefParts : List RefPart :=
        (if extrusionLoaded e then [RefPart.extrusion] else [])
          ++ (if bracketLoaded e then [RefPart.bracket] else [])
          ++ (if bracketScrewLoaded e then [RefPart.bracketScrew] else [])
          ++ (if csScrewLoaded e then [RefPart.csScrew] else [])
          ++ (if waterPortLoaded e then [RefPart.waterPort] else [])
      let assembly : List Part :=
        [Part.coolingBlock, Part.blockLid, Part.pcbWindow]
          ++ window_screw_holes.map (fun _ => Part.spacer)
          ++ (if waterPortLoaded e then [Part.waterInlet, Part.waterOutlet] else [])
          ++ (if bracketLoaded e then
                [Part.bracket1, Part.bracket2, Part.bracket3, Part.bracket4] else [])
          ++ (if bracketScrewLoaded e then
                [Part.bracketScrew1, Part.bracketScrew2,
                 Part.bracketScrew3, Part.bracketScrew4] else [])
          ++ (if extrusionLoaded e then [Part.extrusion1, Part.extrusion2] else [])
          ++ (if csScrewLoaded e then cs_holes.map (fun _ => Part.csScrew) else [])
      let exportedFiles : List FileName :=
        if e.showObjectDefined then []
        else [FileName.assemblyStep, FileName.blockStep, FileName.lidStep]
      Except.ok
        ⟨refWarnings ++ extrusionWarnings ++ bracketWarnings
            ++ bracketScrewWarnings ++ csScrewWarnings ++ waterPortWarnings,
          loadedRefParts, assembly, exportedFiles, buildDirCreated⟩

/-! ## Theorems -/

set_option maxRecDepth 100000
set_option maxHeartbeats 4000000
set_option synthInstance.maxHeartbeats 2000000

/-- Adding one to an even truncated quotient always yields an odd integer. -/
theorem fin_number_adjust_odd (n : ℤ) : Odd (fin_number_adjust n) := by
  unfold fin_number_adjust
  by_cases h : n % 2 = 0
  · rw [if_pos h, Int.odd_iff]
    omega
  · rw [if_neg h, Int.odd_iff]
    omega

/-- C2: for every choice of positive parameters `heatsink_cut_w`, `fin_gap`
and `approx_fin_t`, after the odd/even adjustment step (increment by one
when the truncated quotient is even) the resulting `fin_number` is odd. -/
theorem fin_number_calc_odd (w g t : ℚ) (hw : 0 < w) (hg : 0 < g) (ht : 0 < t) :
    Odd (fin_number_calc w g t) :=
  fin_number_adjust_odd _

/-- Witness for C2 at the shipped parameter values 293.36, 10 and 4. -/
theorem fin_number_calc_odd_witness :
    (0 : ℚ) < 293.36 ∧ (0 : ℚ) < 10 ∧ (0 : ℚ) < 4
      ∧ Odd (fin_number_calc 293.36 10 4) :=
  ⟨by norm_num, by norm_num, by norm_num,
    fin_number_calc_odd 293.36 10 4 (by norm_num) (by norm_num) (by norm_num)⟩

/-- C3 counterexample: at `heatsink_cut_w = 7`, `fin_gap = 1`,
`fin_number = 3` the computed fin thickness is exactly 1 mm, which is not
greater than 1 mm, yet the guard `if fin_t < 1` does not raise; so the
guard does not raise exactly when the thickness fails to exceed 1 mm. -/
theorem fin_t_guard_boundary_counterexample :
    ¬ (fin_t_guard_raises (fin_t_calc 7 1 3) = true ↔ ¬ (1 < fin_t_calc 7 1 3)) := by
  with_unfolding_all decide

/-- C3 (amended): the script raises `ValueError` exactly when the computed
fin thickness is strictly below 1 mm, and proceeds whenever it is at least
1 mm (in particular also at exactly 1 mm). -/
theorem fin_t_guard_raises_iff (w g : ℚ) (n : ℤ) :
    (fin_t_guard_raises (fin_t_calc w g n) = true ↔ fin_t_calc w g n < 1)
      ∧ (fin_t_guard_raises (fin_t_calc w g n) = false ↔ 1 ≤ fin_t_calc w g n) := by
  constructor
  · simp [fin_t_guard_raises]
  · simp [fin_t_guard_raises]

/-- C4: `heatsink_cutout` raises `ValueError` precisely on an even
`fin_number` argument, and proceeds past the guard precisely on an odd one
(Python floor-mod agrees with `Int.emod` at modulus 2). -/
theorem heatsink_cutout_guard_iff (n : ℤ) :
    (heatsink_cutout_guard_raises n = true ↔ Even n)
      ∧ (heatsink_cutout_guard_raises n = false ↔ Odd n) := by
  constructor
  · simp [heatsink_cutout_guard_raises, Int.even_iff]
  · simp only [heatsink_cutout_guard_raises, decide_eq_false_iff_not, Int.odd_iff]
    omega

/-- C9: for the shipped parameter values the derived `fin_number` is 21,
which is odd, and the derived `fin_t` is 73.36 / 21 (about 3.49 mm), at
least 1 mm, so neither fatal-error branch is reachable. -/
theorem shipped_parameters_guards_safe :
    fin_number = 21 ∧ fin_number % 2 = 1 ∧ fin_t = 73.36 / 21
      ∧ 1 ≤ fin_t ∧ fin_t_guard_raises fin_t = false
      ∧ heatsink_cutout_guard_raises fin_number = false := by
  with_unfolding_all decide

/-- C1: the regular-grid x-centers are evenly spaced with step
`block_l / led_array_cols`, the y-centers are evenly spaced with step
`block_w / led_array_rows`, and the full hole set is invariant under
reflection in either axis and under point reflection about the origin. -/
theorem led_screw_layout_spacing_and_symmetry :
    consecDiffs led_screw_centers_along_x_axis
        = List.replicate 9 (block_l / (led_array_cols : ℚ))
      ∧ consecDiffs led_screw_centers_along_y_axis
        = List.replicate 10 (block_w / (led_array_rows : ℚ))
      ∧ led_screw_holes.image (fun p => (-p.1, p.2)) = led_screw_holes
      ∧ led_screw_holes.image (fun p => (p.1, -p.2)) = led_screw_holes
      ∧ led_screw_holes.image (fun p => (-p.1, -p.2)) = led_screw_holes := by
  have hx : led_screw_holes.image (fun p => (-p.1, p.2)) = led_screw_holes := by
    with_unfolding_all decide
  have hy : led_screw_holes.image (fun p => (p.1, -p.2)) = led_screw_holes := by
    with_unfolding_all decide
  have hxy : led_screw_holes.image (fun p => (-p.1, -p.2)) = led_screw_holes := by
    have hcomp : led_screw_holes.image (fun p => (-p.1, -p.2))
        = (led_screw_holes.image (fun p => (-p.1, p.2))).image
            (fun p => (p.1, -p.2)) := by
      rw [Finset.image_image]
      exact Finset.image_congr fun x _ => rfl
    rw [hcomp, hx, hy]
  exact ⟨by with_unfolding_all decide, by with_unfolding_all decide, hx, hy, hxy⟩

/-- C8: the top and bottom pass-through lists have `led_array_cols` entries
each, the bottom list reversed is the coordinate-wise negation of the top
list, and the combined set is invariant under point reflection. -/
theorem pt_hole_layout_point_symmetric :
    pt_hole_x_centers_along_top.length = led_array_cols
      ∧ pt_hole_x_centers_along_bottom.length = led_array_cols
      ∧ pt_hole_x_centers_along_bottom.reverse
        = pt_hole_x_centers_along_top.map (fun p => (-p.1, -p.2))
      ∧ pt_hole_centers.toFinset.image (fun p => (-p.1, -p.2))
        = pt_hole_centers.toFinset := by
  with_unfolding_all decide

/-- C10: the grid, left-side and right-side screw centers are pairwise
distinct, so building the Python `set` removes nothing and the set has
exactly (11 - 1) * 11 + 11 + 11 = 132 points. -/
theorem led_screw_holes_distinct :
    led_screw_grid.length = (led_array_cols - 1) * led_array_rows
      ∧ led_screw_centers_along_left.length = led_array_rows
      ∧ led_screw_centers_along_right.length = led_array_rows
      ∧ led_screw_holes_list.Nodup
      ∧ led_screw_holes.card = 132 := by
  with_unfolding_all decide

/-- C5: when `ref/` does not exist the script warns, loads no reference
part, omits every reference hardware part from the assembly, still builds
the block, lid, window and the four spacers, and runs to completion
(including the export branch). -/
theorem ref_dir_missing_graceful (bd so e1 e2 e3 e4 e5 : Bool) :
    ∃ r, runScript ⟨false, bd, so, e1, e2, e3, e4, e5⟩ = Except.ok r
      ∧ Warning.refDirMissing ∈ r.warnings
      ∧ r.loadedRefParts = []
      ∧ Part.waterInlet ∉ r.assembly ∧ Part.waterOutlet ∉ r.assembly
      ∧ Part.bracket1 ∉ r.assembly ∧ Part.bracket2 ∉ r.assembly
      ∧ Part.bracket3 ∉ r.assembly ∧ Part.bracket4 ∉ r.assembly
      ∧ Part.bracketScrew1 ∉ r.assembly ∧ Part.bracketScrew2 ∉ r.assembly
      ∧ Part.bracketScrew3 ∉ r.assembly ∧ Part.bracketScrew4 ∉ r.assembly
      ∧ Part.extrusion1 ∉ r.assembly ∧ Part.extrusion2 ∉ r.assembly
      ∧ Part.csScrew ∉ r.assembly
      ∧ Part.coolingBlock ∈ r.assembly ∧ Part.blockLid ∈ r.assembly
      ∧ Part.pcbWindow ∈ r.assembly ∧ r.assembly.count Part.spacer = 4
      ∧ r.exportedFiles
        = (if so then []
           else [FileName.assemblyStep, FileName.blockStep, FileName.lidStep]) := by
  cases bd <;> cases so <;> cases e1 <;> cases e2 <;> cases e3 <;> cases e4 <;>
    cases e5 <;>
    exact ⟨_, by with_unfolding_all rfl, by with_unfolding_all decide⟩

/-- Witness instantiating C5 at a concrete environment. -/
theorem ref_dir_missing_graceful_witness :
    ∃ r, runScript ⟨false, false, false, true, true, true, true, true⟩ = Except.ok r
      ∧ Warning.refDirMissing ∈ r.warnings ∧ r.loadedRefParts = []
      ∧ Part.waterInlet ∉ r.assembly ∧ Part.coolingBlock ∈ r.assembly := by
  obtain ⟨r, h₁, h₂, h₃, h₄, -, -, -, -, -, -, -, -, -, -, -, -, h₅, -, -, -, -⟩ :=
    ref_dir_missing_graceful false false true true true true true
  exact ⟨r, h₁, h₂, h₃, h₄, h₅⟩

/-- C6: with `ref/` present, a failure of any of the five reference STEP
imports never aborts the run: the run still finishes in `Except.ok`, each
failed load leaves its warning and its part is missing from the assembly,
and the export branch is still reached. -/
theorem load_failure_graceful (bd so e1 e2 e3 e4 e5 : Bool) :
    ∃ r, runScript ⟨true, bd, so, e1, e2, e3, e4, e5⟩ = Except.ok r
      ∧ (e1 = false → Warning.extrusionLoadFailed ∈ r.warnings
          ∧ Part.extrusion1 ∉ r.assembly ∧ Part.extrusion2 ∉ r.assembly)
      ∧ (e2 = false → Warning.bracketLoadFailed ∈ r.warnings
          ∧ Part.bracket1 ∉ r.assembly ∧ Part.bracket2 ∉ r.assembly
          ∧ Part.bracket3 ∉ r.assembly ∧ Part.bracket4 ∉ r.assembly)
      ∧ (e3 = false → Warning.bracketScrewLoadFailed ∈ r.warnings
          ∧ Part.bracketScrew1 ∉ r.assembly ∧ Part.bracketScrew2 ∉ r.assembly
          ∧ Part.bracketScrew3 ∉ r.assembly ∧ Part.bracketScrew4 ∉ r.assembly)
      ∧ (e4 = false → Warning.csScrewLoadFailed ∈ r.warnings
          ∧ Part.csScrew ∉ r.assembly)
      ∧ (e5 = false → Warning.waterPortLoadFailed ∈ r.warnings
          ∧ Part.waterInlet ∉ r.assembly ∧ Part.waterOutlet ∉ r.assembly)
      ∧ r.exportedFiles
        = (if so then []
           else [FileName.assemblyStep, FileName.blockStep, FileName.lidStep]) := by
  cases bd <;> cases so <;> cases e1 <;> cases e2 <;> cases e3 <;> cases e4 <;>
    cases e5 <;>
    exact ⟨_, by with_unfolding_all rfl, by with_unfolding_all decide,
      by with_unfolding_all decide, by with_unfolding_all decide,
      by with_unfolding_all decide, by with_unfolding_all decide,
      by with_unfolding_all rfl⟩

/-- Witness instantiating C6 at a concrete environment in which every
reference load fails. -/
theorem load_failure_graceful_witness :
    ∃ r, runScript ⟨true, false, false, false, false, false, false, false⟩ = Except.ok r
      ∧ Warning.extrusionLoadFailed ∈ r.warnings
      ∧ Warning.waterPortLoadFailed ∈ r.warnings
      ∧ Part.waterInlet ∉ r.assembly
      ∧ r.exportedFiles = [FileName.assemblyStep, FileName.blockStep, FileName.lidStep] := by
  obtain ⟨r, h₁, h₂, -, -, -, h₃, h₄⟩ :=
    load_failure_graceful false false false false false false false
  exact ⟨r, h₁, (h₂ rfl).1, (h₃ rfl).1, (h₃ rfl).2.1, h₄⟩

/-- C7 counterexample: in a run with a `show_object` callback injected (the
CadQuery editor case, line 913) the script writes no STEP files at all, so
it is not true that every run writes the three output files. -/
theorem export_branch_counterexample :
    ∃ r, runScript ⟨true, false, true, true, true, true, true, true⟩ = Except.ok r
      ∧ r.exportedFiles = [] ∧ FileName.assemblyStep ∉ r.exportedFiles := by
  exact ⟨_, by with_unfolding_all rfl, by with_unfolding_all rfl,
    by with_unfolding_all decide⟩

/-- C7 (amended): on every run in which no `show_object` callback is
injected (batch execution) the script writes exactly `assembly.step`,
`block.step` and `lid.step` into `build/`, having created that directory
first exactly when it did not already exist; when `show_object` is defined
the parts are displayed instead and nothing is written. -/
theorem batch_run_exports_three_files (rd bd e1 e2 e3 e4 e5 : Bool) :
    ∃ r, runScript ⟨rd, bd, false, e1, e2, e3, e4, e5⟩ = Except.ok r
      ∧ r.exportedFiles = [FileName.assemblyStep, FileName.blockStep, FileName.lidStep]
      ∧ r.buildDirCreated = !bd := by
  exact ⟨_, by with_unfolding_all rfl, by with_unfolding_all rfl,
    by with_unfolding_all rfl⟩

end CoolingBlock
